import Mathlib

/-!
Verification development for the issue-triage workflow test harness
(`.github/test-workflow.py`).

The harness creates test issues, correlates each issue with an
asynchronously triggered workflow run, polls the run to completion with
exponential backoff, and then validates the labels and the structured
"AI Assessment" comment that the automation is expected to produce.

The Python module is shallowly embedded below.  Pure text scanning
(the compiled regular expressions) is modelled character by character on
`List Char`; the effectful validators are modelled as functions of an
explicit environment (the snapshots the external tracker would return at
each polling attempt), returning `Except`-style results together with an
observable trace (the wait durations slept and the number of probe
calls made).  `unittest.TestCase.fail` and the `assert*` helpers raise,
so a validator is a fallible computation whose first failure aborts it;
this is modelled with `Except`, and callers that do not catch (none do)
propagate the error.
-/

/-- Python regex `\d` on ASCII text: a decimal digit. -/
def isDigitCh (c : Char) : Bool := decide (48 ≤ c.toNat ∧ c.toNat ≤ 57)

/-- Python regex `\s` on ASCII text: space, tab, newline, vertical tab,
form feed, carriage return (code points 32 and 9..13). -/
def isPySpace (c : Char) : Bool := decide (c.toNat = 32 ∨ (9 ≤ c.toNat ∧ c.toNat ≤ 13))

/-- Python regex word character `\w` on ASCII text: letters, digits and
the underscore. -/
def isWordChar (c : Char) : Bool :=
  decide ((48 ≤ c.toNat ∧ c.toNat ≤ 57) ∨ (65 ≤ c.toNat ∧ c.toNat ≤ 90) ∨
    (97 ≤ c.toNat ∧ c.toNat ≤ 122) ∨ c.toNat = 95)

/-- Case-sensitive "pattern is an initial segment of the text"
(Python `str.startswith`). -/
def startsWithChars : List Char → List Char → Bool
  | [], _ => true
  | _ :: _, [] => false
  | p :: ps, c :: cs => p == c && startsWithChars ps cs

/-- Case-sensitive substring test (Python `pattern in text`). -/
def containsSub (pat : List Char) : List Char → Bool
  | [] => pat.isEmpty
  | c :: rest => startsWithChars pat (c :: rest) || containsSub pat rest

/-- Case-insensitive variant of `startsWithChars`, modelling a literal
matched under `re.IGNORECASE` (ASCII case folding). -/
def startsWithCI : List Char → List Char → Bool
  | [], _ => true
  | _ :: _, [] => false
  | p :: ps, c :: cs => p.toLower == c.toLower && startsWithCI ps cs

/-- One anchored attempt of `_ISSUE_NUMBER_IN_TITLE_PATTERN`, i.e. the
regex `#\s*(\d+)\b`, at the position just after a `#`: skip whitespace,
read a maximal digit run, and require a word boundary after it (end of
text or a non-word character).  Returns the captured digits. -/
def hashTokenAt (cs : List Char) : Option (List Char) :=
  let afterWs := cs.dropWhile isPySpace
  let ds := afterWs.takeWhile isDigitCh
  let rest := afterWs.dropWhile isDigitCh
  if ds.isEmpty then none
  else
    match rest with
    | [] => some ds
    | c :: _ => if isWordChar c then none else some ds

/-- `re.search` for `#\s*(\d+)\b`: try each position left to right; on a
failed attempt at a `#`, the search resumes at the next character. -/
def firstHashTokenAux : List Char → Option (List Char)
  | [] => none
  | c :: rest =>
    if c == '#' then
      match hashTokenAt rest with
      | some ds => some ds
      | none => firstHashTokenAux rest
    else firstHashTokenAux rest

/-- `_ISSUE_NUMBER_IN_TITLE_PATTERN.search(title)` followed by
`match.group(1)`: the digits of the first `#`-token in a display title
(`None` when the pattern does not occur). -/
def extract_issue_number_from_title (s : String) : Option String :=
  (firstHashTokenAux s.data).map (fun ds => (⟨ds⟩ : String))

/-- `re.search` for `_ISSUE_NUMBER_PATTERN`, i.e. `/issues/(\d+)`: find
the first occurrence of the literal `/issues/` that is followed by at
least one digit and return the maximal digit run after it. -/
def issuesNumAux : List Char → Option (List Char)
  | [] => none
  | c :: rest =>
    if startsWithChars ("/issues/".data) (c :: rest) then
      let ds := ((c :: rest).drop 8).takeWhile isDigitCh
      if ds.isEmpty then issuesNumAux rest else some ds
    else issuesNumAux rest

/-- `extract_issue_number_from_url`: issue number from a GitHub issue
URL, via `_ISSUE_NUMBER_PATTERN`. -/
def extract_issue_number_from_url (url : String) : Option String :=
  (issuesNumAux url.data).map (fun ds => (⟨ds⟩ : String))

/-- The literal marker the assessment validator looks for. -/
def markerChars : List Char := "AI Assessment:".data

/-- `re.search(r"AI Assessment:\s*([^\n\s]+)", body, re.IGNORECASE)`
followed by `match.group(1).strip()`: at the first (case-insensitive)
occurrence of the marker, skip whitespace and capture the maximal run of
non-whitespace characters.  When only whitespace follows that occurrence
the attempt fails and the search resumes one character later.  The
captured token contains no whitespace, so the `.strip()` in the source
is the identity on it. -/
def assessTokenAux : List Char → Option (List Char)
  | [] => none
  | c :: rest =>
    if startsWithCI markerChars (c :: rest) then
      let after := ((c :: rest).drop markerChars.length).dropWhile isPySpace
      let tok := after.takeWhile (fun ch => ! isPySpace ch)
      if tok.isEmpty then assessTokenAux rest else some tok
    else assessTokenAux rest

/-- The closed severity vocabulary of the assessment format regex. -/
def severities : List String := ["critical", "high", "medium", "low"]

/-- The closed component vocabulary of the assessment format regex. -/
def components : List String := ["coreapi", "networking", "installation", "storage", "webconsole", "documentation"]

/-- ASCII lowercasing of a string (for `re.IGNORECASE`). -/
def lowerStr (s : String) : String := ⟨s.data.map Char.toLower⟩

/-- `re.match(r"^(critical|high|medium|low)-(coreapi|networking|installation|storage|webconsole|documentation)$", tok, re.IGNORECASE)`:
the token, lowercased, is exactly one of the `severity-component`
vocabulary words. -/
def isValidAssessment (tok : String) : Bool :=
  severities.any (fun sev => components.any (fun comp => lowerStr tok == sev ++ "-" ++ comp))

/-! ## Data model -/

deriving instance DecidableEq for Except

/-- One snapshot of an automation run, as returned by
`get_workflow_runs` (the JSON fields requested from `gh run list`).
Absent JSON keys are `none`; `dict.get` defaults are applied by the
accessor functions below, exactly as at the use sites in
`_validate_issue_with_retry`. -/
structure RunSnap where
  databaseId : Option Nat
  displayTitle : String
  status : Option String
  conclusion : Option String
  createdAt : Option String
  updatedAt : Option String
  deriving DecidableEq

/-- `run.get("status", "unknown")`. -/
def RunSnap.statusD (r : RunSnap) : String := r.status.getD "unknown"

/-- `run.get("conclusion", "unknown")`. -/
def RunSnap.conclusionD (r : RunSnap) : String := r.conclusion.getD "unknown"

/-- `run.get("createdAt", "")`. -/
def RunSnap.createdD (r : RunSnap) : String := r.createdAt.getD ""

/-- `run.get("updatedAt", "")`. -/
def RunSnap.updatedD (r : RunSnap) : String := r.updatedAt.getD ""

/-- Python truthiness of `run.get("databaseId")` negated: `not run_id`
is true when the key is absent (`None`) or the number is `0`. -/
def runIdFalsy (r : RunSnap) : Bool := (r.databaseId.getD 0) == 0

/-- Failures raised by `_validate_issue_labels` via `self.fail`; each
constructor corresponds to one failure message, carrying the data that
message interpolates (beyond the uniform issue/scenario prefix). -/
inductive LabelFail where
  /-- "Expected 'kind/bug' label to be preserved, but it's missing.
  Actual labels: ...". -/
  | kindBugMissing (actual : List String)
  /-- "Expected AI label '...' not found.  Actual labels: ..."
  (the exact-literal-match fallback, both of its `self.fail` sites). -/
  | aiLabelNotFound (expectedLabel : String) (actual : List String)
  /-- "Expected AI label with component '...' not found. ...
  Actual labels: ...". -/
  | componentNotFound (component : String) (actual : List String)
  deriving DecidableEq

/-- Failures raised by `_validate_ai_assessment_comment`; one
constructor per `self.fail` message. -/
inductive AssessFail where
  /-- "No comments found (expected AI Assessment comment after N
  attempts)". -/
  | noComments (attempts : Nat)
  /-- "AI Assessment comment found but format is invalid. ...
  Found: ..." with the literally found token(s). -/
  | invalidFormat (found : List String)
  /-- "AI Assessment comment not found in issue comments after N
  attempts". -/
  | notFound (attempts : Nat)
  deriving DecidableEq

/-- Failures raised by `_validate_issue_with_retry` (directly, or
propagated out of the two sub-validators it calls); one constructor per
`self.fail` / failed `assertEqual` message. -/
inductive VFail where
  /-- "No workflow run found". -/
  | noRunFound
  /-- "No run_id found". -/
  | noRunId
  /-- "No createdAt timestamp". -/
  | noCreatedAt
  /-- "No updatedAt timestamp". -/
  | noUpdatedAt
  /-- "did not complete after N retries with exponential backoff". -/
  | didNotCompleteAfterRetries (maxRetries : Nat)
  /-- "did not complete" (the `assertEqual` on status). -/
  | didNotComplete (statusFound : String)
  /-- "did not complete successfully" (the `assertEqual` on
  conclusion). -/
  | didNotCompleteSuccessfully (conclusionFound : String)
  /-- a failure raised inside `_validate_issue_labels`. -/
  | labelFail (f : LabelFail)
  /-- a failure raised inside `_validate_ai_assessment_comment`. -/
  | assessFail (f : AssessFail)
  deriving DecidableEq

/-! ## Run correlation -/

/-- The correlation loop over `get_workflow_runs` output: the first run
(most recent, since the tracker sorts most-recent-first) whose display
title's first `#`-token digits equal the issue number exactly. -/
def findRunForIssue (issueNumber : String) (runs : List RunSnap) : Option RunSnap :=
  runs.find? (fun wr => decide (extract_issue_number_from_title wr.displayTitle = some issueNumber))

/-! ## Completion validator -/

/-- `max_retries` in `_validate_issue_with_retry`. -/
def maxRunRetries : Nat := 3

/-- `base_wait_seconds` in `_validate_issue_with_retry`. -/
def baseRunWait : Nat := 10

/-- Result of the completion-polling loop: the outcome (`.ok` carries
the correlated terminal run), plus the trace of `time.sleep` durations
and the number of `get_workflow_runs` probe calls. -/
structure CompletionResult where
  outcome : Except VFail RunSnap
  waits : List Nat
  probes : Nat
  deriving DecidableEq

/-- The `for attempt in range(max_retries + 1)` loop of
`_validate_issue_with_retry`, over the list of remaining attempt
indices.  `runsAt t` is the `get_workflow_runs` snapshot observed at
attempt `t`.  The `[]` case is unreachable from `completionRun` (the
final attempt always returns: its `continue` branches are guarded by
`attempt < maxRunRetries`). -/
def completionLoop (runsAt : Nat → List RunSnap) (issueNumber : String) :
    List Nat → CompletionResult
  | [] => ⟨.error .noRunFound, [], 0⟩
  | attempt :: rest =>
    match findRunForIssue issueNumber (runsAt attempt) with
    | none =>
      if attempt < maxRunRetries then
        let k := completionLoop runsAt issueNumber rest
        ⟨k.outcome, baseRunWait * 2 ^ attempt :: k.waits, k.probes + 1⟩
      else ⟨.error .noRunFound, [], 1⟩
    | some run =>
      if runIdFalsy run then ⟨.error .noRunId, [], 1⟩
      else if run.createdD = "" then ⟨.error .noCreatedAt, [], 1⟩
      else if run.updatedD = "" then ⟨.error .noUpdatedAt, [], 1⟩
      else if run.statusD = "in_progress" ∧ attempt < maxRunRetries then
        let k := completionLoop runsAt issueNumber rest
        ⟨k.outcome, baseRunWait * 2 ^ attempt :: k.waits, k.probes + 1⟩
      else if run.statusD = "in_progress" then
        ⟨.error (.didNotCompleteAfterRetries maxRunRetries), [], 1⟩
      else if run.statusD ≠ "completed" then ⟨.error (.didNotComplete run.statusD), [], 1⟩
      else if run.conclusionD ≠ "success" then
        ⟨.error (.didNotCompleteSuccessfully run.conclusionD), [], 1⟩
      else ⟨.ok run, [], 1⟩

/-- `range(max_retries + 1)` with `max_retries = 3`. -/
def runAttempts : List Nat := [0, 1, 2, 3]

/-- The completion-validation part of `_validate_issue_with_retry`:
poll, correlate, check required fields, wait for a terminal status and
assert completed/success. -/
def completionRun (runsAt : Nat → List RunSnap) (issueNumber : String) : CompletionResult :=
  completionLoop runsAt issueNumber runAttempts

/-! ## Label validator -/

/-- Python `s.split("-", 1)`. -/
def splitOnceDash (s : String) : List String :=
  let pre := s.data.takeWhile (fun c => ! (c == '-'))
  match s.data.dropWhile (fun c => ! (c == '-')) with
  | [] => [s]
  | _ :: tail => [(⟨pre⟩ : String), (⟨tail⟩ : String)]

/-- Fuelled worker for `pyRemoveAll`; the fuel is the text length,
enough because every step consumes at least one character when the
pattern is nonempty. -/
def removeAllAux (pat : List Char) : Nat → List Char → List Char
  | _, [] => []
  | 0, text => text
  | fuel + 1, c :: rest =>
    if startsWithChars pat (c :: rest) then
      removeAllAux pat fuel (List.drop (pat.length - 1) rest)
    else c :: removeAllAux pat fuel rest

/-- Python `s.replace(pat, "")`: remove every (non-overlapping,
left-to-right) occurrence of `pat`. -/
def pyRemoveAll (pat : String) (s : String) : String :=
  ⟨removeAllAux pat.data s.data.length s.data⟩

/-- `label.replace("ai:bug-triage:", "")`. -/
def stripAiTriage (lbl : String) : String := pyRemoveAll "ai:bug-triage:" lbl

/-- Python `s.startswith(p)` on strings. -/
def labelStartsWith (p s : String) : Bool := startsWithChars p.data s.data

/-- Worker for `dedupFirst`. -/
def dedupFirstAux (seen : List String) : List String → List String
  | [] => []
  | x :: xs =>
    if seen.contains x then dedupFirstAux seen xs
    else x :: dedupFirstAux (x :: seen) xs

/-- The distinct elements of a list, first occurrences first: the model
of iterating over `set(expected_labels)` (CPython set iteration order is
unspecified; any order is a faithful model, and membership — the only
thing the checks depend on — is order-independent). -/
def dedupFirst (xs : List String) : List String := dedupFirstAux [] xs

/-- The body of the `for expected_ai_label in ai_labels` loop of
`_validate_issue_labels`, for one expected AI label. -/
def checkAiLabel (actualLabels : List String) (lbl : String) : Except LabelFail Unit :=
  if ! labelStartsWith "ai:bug-triage:" lbl then
    -- not in the structured format: exact literal match required
    if actualLabels.contains lbl then .ok ()
    else .error (.aiLabelNotFound lbl actualLabels)
  else
    let parts := splitOnceDash (stripAiTriage lbl)
    if parts.length < 2 then
      -- no severity-component split: exact literal match fallback
      if actualLabels.contains lbl then .ok ()
      else .error (.aiLabelNotFound lbl actualLabels)
    else
      let comp := parts.getD 1 ""
      if actualLabels.any (fun al =>
          labelStartsWith "ai:bug-triage:" al &&
          (let ap := splitOnceDash (stripAiTriage al)
           decide (2 ≤ ap.length) && (ap.getD 1 "" == comp)))
      then .ok ()
      else .error (.componentNotFound comp actualLabels)

/-- The expected-AI-labels loop; the first `self.fail` aborts it. -/
def checkAiLabels (actualLabels : List String) : List String → Except LabelFail Unit
  | [] => .ok ()
  | l :: ls =>
    match checkAiLabel actualLabels l with
    | .error e => .error e
    | .ok _ => checkAiLabels actualLabels ls

/-- `_validate_issue_labels` with the fetched label set made explicit:
the `kind/bug` preservation check, then the fuzzy AI-label checks. -/
def validate_issue_labels (expectedLabels actualLabels : List String) : Except LabelFail Unit :=
  if expectedLabels.contains "kind/bug" && ! actualLabels.contains "kind/bug" then
    .error (.kindBugMissing actualLabels)
  else
    checkAiLabels actualLabels ((dedupFirst expectedLabels).filter (fun l => labelStartsWith "ai:" l))

/-! ## Assessment validator -/

/-- `max_comment_retries` in `_validate_ai_assessment_comment`. -/
def maxCommentRetries : Nat := 3

/-- `base_wait_seconds` in `_validate_ai_assessment_comment`. -/
def baseCommentWait : Nat := 3

/-- The per-comment scan of `_validate_ai_assessment_comment`: the
case-sensitive `"AI Assessment:" in body` gate, then the
case-insensitive token extraction, then the vocabulary format check. -/
def commentValid (body : String) : Bool :=
  containsSub markerChars body.data &&
    (match assessTokenAux body.data with
     | some tok => isValidAssessment ⟨tok⟩
     | none => false)

/-- The `actual_assessments` collection on the exhaustion path: the
token of every comment that passes the case-sensitive marker gate and
yields a regex match. -/
def collectTokens (comments : List String) : List String :=
  comments.filterMap (fun b =>
    if containsSub markerChars b.data then (assessTokenAux b.data).map (fun t => (⟨t⟩ : String))
    else none)

/-- Result of the assessment-polling loop, with its sleep trace and its
number of `get_issue_comments` probe calls. -/
structure AssessResult where
  outcome : Except AssessFail Unit
  waits : List Nat
  probes : Nat
  deriving DecidableEq

/-- The `for attempt in range(max_comment_retries + 1)` loop of
`_validate_ai_assessment_comment`.  `commentsAt t` is the comment list
fetched at attempt `t`.  As in `completionLoop`, the `[]` case is
unreachable from `validate_ai_assessment_comment`. -/
def assessLoop (commentsAt : Nat → List String) : List Nat → AssessResult
  | [] => ⟨.error (.notFound (maxCommentRetries + 1)), [], 0⟩
  | attempt :: rest =>
    let comments := commentsAt attempt
    if comments.any commentValid then ⟨.ok (), [], 1⟩
    else if attempt < maxCommentRetries then
      let k := assessLoop commentsAt rest
      ⟨k.outcome, baseCommentWait * 2 ^ attempt :: k.waits, k.probes + 1⟩
    else if comments.isEmpty then ⟨.error (.noComments (maxCommentRetries + 1)), [], 1⟩
    else
      let found := collectTokens comments
      if found.isEmpty then ⟨.error (.notFound (maxCommentRetries + 1)), [], 1⟩
      else ⟨.error (.invalidFormat found), [], 1⟩

/-- `_validate_ai_assessment_comment` with the comment fetches made
explicit. -/
def validate_ai_assessment_comment (commentsAt : Nat → List String) : AssessResult :=
  assessLoop commentsAt [0, 1, 2, 3]

/-! ## Per-issue validation and the orchestrator -/

/-- The scenario metadata consulted by `_validate_issue_with_retry`
(the `scenario` string is dropped: it only decorates messages). -/
structure Metadata where
  is_positive : Bool
  expected_assessment : Option String
  expected_labels : List String
  deriving DecidableEq

/-- Python truthiness of `metadata.get("expected_assessment")`. -/
def truthyOptStr : Option String → Bool
  | none => false
  | some s => ! (s == "")

/-- The `scenario_metadata.get(issue_number, {})` default. -/
def defaultMetadata : Metadata := ⟨false, none, []⟩

/-- The external data one issue's validation consumes: workflow-run
snapshots per completion attempt, the issue's current labels, and the
comment list per assessment attempt. -/
structure IssueEnv where
  runsAt : Nat → List RunSnap
  labels : List String
  commentsAt : Nat → List String

/-- Observable outcome of `_validate_issue_with_retry` for one issue:
the result (first raised failure, if any), the completion loop's sleep
trace and probe count, and how many comment fetches the assessment
validator performed (`0` when it was never entered). -/
structure ValidationOutcome where
  result : Except VFail Unit
  runWaits : List Nat
  runProbes : Nat
  assessProbes : Nat
  deriving DecidableEq

/-- `_validate_issue_with_retry`: completion validation, then — only on
success, since a raised failure propagates — label validation when
`expected_labels` is truthy, then — only if that did not raise —
assessment validation when `is_positive` or `expected_assessment` is
truthy. -/
def validate_issue_with_retry (env : IssueEnv) (issueNumber : String) (md : Metadata) :
    ValidationOutcome :=
  let comp := completionRun env.runsAt issueNumber
  match comp.outcome with
  | .error f => ⟨.error f, comp.waits, comp.probes, 0⟩
  | .ok _ =>
    match (if md.expected_labels.isEmpty then .ok ()
           else validate_issue_labels md.expected_labels env.labels) with
    | .error lf => ⟨.error (.labelFail lf), comp.waits, comp.probes, 0⟩
    | .ok _ =>
      if md.is_positive || truthyOptStr md.expected_assessment then
        let a := validate_ai_assessment_comment env.commentsAt
        ⟨a.outcome.mapError VFail.assessFail, comp.waits, comp.probes, a.probes⟩
      else ⟨.ok (), comp.waits, comp.probes, 0⟩

/-- `metadata = scenario_metadata.get(issue_number, {})`, with the
metadata map as an association list. -/
def lookupMd (mdMap : List (String × Metadata)) (n : String) : Metadata :=
  match mdMap.find? (fun p => p.1 == n) with
  | some p => p.2
  | none => defaultMetadata

/-- The `for issue_number in issue_numbers` loop of
`validate_test_issues`.  There is no `try`/`except`: the first failure
raised inside `_validate_issue_with_retry` propagates and ends the loop.
Returns the issue numbers whose validation was actually entered,
together with the propagated failure (if any), tagged with the issue it
was raised for. -/
def validateIssuesGo (env : String → IssueEnv) (mdMap : List (String × Metadata)) :
    List String → List String × Except (String × VFail) Unit
  | [] => ([], .ok ())
  | n :: ns =>
    let out := validate_issue_with_retry (env n) n (lookupMd mdMap n)
    match out.result with
    | .error f => ([n], .error (n, f))
    | .ok _ =>
      let k := validateIssuesGo env mdMap ns
      (n :: k.1, k.2)

/-- `validate_test_issues`: extract the issue numbers from the created
issue URLs (skipping URLs without one), then validate each in order. -/
def validate_test_issues (env : String → IssueEnv) (mdMap : List (String × Metadata))
    (createdIssues : List String) : List String × Except (String × VFail) Unit :=
  validateIssuesGo env mdMap (createdIssues.filterMap extract_issue_number_from_url)

/-! ## Concrete fixtures used by witnesses and counterexamples -/

/-- A terminal, successful workflow run for issue `n`, with all
required fields present, titled in the shape the automation uses. -/
def runFor (n : String) : RunSnap :=
  ⟨some 7, "AI Triage for Issue #" ++ n, some "completed", some "success",
    some "2024-01-01T00:00:00Z", some "2024-01-01T00:10:00Z"⟩

/-- Environment in which issue 1 never gets a workflow run and every
other issue validates cleanly. -/
def envStops : String → IssueEnv := fun n =>
  if n = "1" then ⟨fun _ => [], [], fun _ => []⟩
  else ⟨fun _ => [runFor n], [], fun _ => []⟩

/-- Environment in which issue 2 never gets a workflow run and every
other issue validates cleanly. -/
def envMid : String → IssueEnv := fun n =>
  if n = "2" then ⟨fun _ => [], [], fun _ => []⟩
  else ⟨fun _ => [runFor n], [], fun _ => []⟩

/-- Environment for issue 6 in which completion, labels and assessment
all validate. -/
def envPass : IssueEnv :=
  ⟨fun _ => [runFor "6"], ["kind/bug"], fun _ => ["AI Assessment: high-storage"]⟩

/-- Environment for issue 7 in which completion succeeds, the label
validation fails (no labels on the issue), and a valid assessment
comment is nevertheless available. -/
def envGated : IssueEnv :=
  ⟨fun _ => [runFor "7"], [], fun _ => ["AI Assessment: high-storage"]⟩

/-- Metadata of a positive fixture that expects `kind/bug` to be
preserved and expects an assessment comment. -/
def mdPositive : Metadata := ⟨true, some "Ready for Review", ["kind/bug"]⟩

/-- A run snapshot that is still in progress and is missing its
`createdAt` timestamp. -/
def badRun : RunSnap :=
  ⟨some 7, "AI Triage for Issue #4", some "in_progress", none, none, some "2024-01-01T00:10:00Z"⟩

/-! ## Helper lemmas -/

/-- A run selected by the correlator has the target identifier as the
digits of its title's first `#`-token, exactly. -/
theorem findRun_some_title {issueNumber : String} {runs : List RunSnap} {r : RunSnap}
    (h : findRunForIssue issueNumber runs = some r) :
    extract_issue_number_from_title r.displayTitle = some issueNumber := by
  have hp := List.find?_some h
  exact of_decide_eq_true hp

/-- The correlator selects the first (most recent) title-matching run
in input order. -/
theorem findRun_first (issueNumber : String) (pre post : List RunSnap) (r : RunSnap)
    (hpre : ∀ q ∈ pre, extract_issue_number_from_title q.displayTitle ≠ some issueNumber)
    (hr : extract_issue_number_from_title r.displayTitle = some issueNumber) :
    findRunForIssue issueNumber (pre ++ r :: post) = some r := by
  induction pre with
  | nil =>
    simp only [List.nil_append, findRunForIssue]
    exact List.find?_cons_of_pos _ (decide_eq_true hr)
  | cons q qs ih =>
    simp only [List.cons_append, findRunForIssue] at ih ⊢
    rw [List.find?_cons_of_neg]
    · exact ih (fun x hx => hpre x (List.mem_cons_of_mem _ hx))
    · simp [hpre q (List.mem_cons_self _ _)]

/-- A singleton run list correlates to its run when the title token
matches. -/
theorem findRun_singleton {issueNumber : String} {r : RunSnap}
    (hr : extract_issue_number_from_title r.displayTitle = some issueNumber) :
    findRunForIssue issueNumber [r] = some r :=
  findRun_first issueNumber [] [] r (by intro q hq; cases hq) hr

theorem isWordChar_of_isDigitCh {c : Char} (h : isDigitCh c = true) : isWordChar c = true := by
  simp only [isDigitCh, decide_eq_true_eq] at h
  simp only [isWordChar, decide_eq_true_eq]
  exact Or.inl h

theorem isPySpace_of_isDigitCh {c : Char} (h : isDigitCh c = true) : isPySpace c = false := by
  simp only [isDigitCh, decide_eq_true_eq] at h
  simp only [isPySpace, decide_eq_false_iff_not]
  omega

/-- `takeWhile`/`dropWhile` on a block that wholly satisfies the
predicate followed by a remainder whose head does not. -/
theorem takeWhile_append_all {p : Char → Bool} :
    ∀ (d r : List Char), (∀ c ∈ d, p c = true) →
      (∀ c, r.head? = some c → p c = false) →
      (d ++ r).takeWhile p = d ∧ (d ++ r).dropWhile p = r
  | [], r, _, hr => by
    cases r with
    | nil => simp
    | cons c r' => simp [List.takeWhile_cons, List.dropWhile_cons, hr c rfl]
  | c :: d', r, hd, hr => by
    have hc : p c = true := hd c (List.mem_cons_self _ _)
    have ih := takeWhile_append_all d' r (fun x hx => hd x (List.mem_cons_of_mem _ hx)) hr
    simp [List.takeWhile_cons, List.dropWhile_cons, hc, ih.1, ih.2]

/-- The anchored `#\s*(\d+)\b` attempt succeeds on a nonempty digit run
followed by a word boundary, capturing exactly that run. -/
theorem hashTokenAt_digits (d r : List Char) (hd : d ≠ [])
    (hdd : ∀ c ∈ d, isDigitCh c = true)
    (hr : ∀ c, r.head? = some c → isWordChar c = false) :
    hashTokenAt (d ++ r) = some d := by
  have hr' : ∀ c, r.head? = some c → isDigitCh c = false := by
    intro c hc
    cases hdc : isDigitCh c with
    | false => rfl
    | true => exact absurd (isWordChar_of_isDigitCh hdc) (by simp [hr c hc])
  cases d with
  | nil => exact absurd rfl hd
  | cons c0 d' =>
    have h0 : isPySpace c0 = false := isPySpace_of_isDigitCh (hdd c0 (List.mem_cons_self _ _))
    have hta := takeWhile_append_all (c0 :: d') r hdd hr'
    rw [List.cons_append] at hta
    simp only [hashTokenAt, List.cons_append, List.dropWhile_cons, h0, Bool.false_eq_true,
      if_false, hta.1, hta.2, List.isEmpty_cons]
    cases r with
    | nil => rfl
    | cons c1 r' => simp [hr c1 rfl]

/-- The `#`-token search returns the digits of the first token: with no
`#` in the text before it, the captured digits do not depend on what
follows the token's word boundary. -/
theorem firstHashTokenAux_precise (p d r : List Char)
    (hp : ('#' : Char) ∉ p) (hd : d ≠ []) (hdd : ∀ c ∈ d, isDigitCh c = true)
    (hr : ∀ c, r.head? = some c → isWordChar c = false) :
    firstHashTokenAux (p ++ '#' :: (d ++ r)) = some d := by
  induction p with
  | nil =>
    simp only [List.nil_append, firstHashTokenAux, beq_self_eq_true, if_true]
    rw [hashTokenAt_digits d r hd hdd hr]
  | cons c p' ih =>
    have hc : ¬ ((c == '#') = true) := by
      simp only [beq_iff_eq]
      intro hh
      exact hp (hh ▸ List.mem_cons_self _ _)
    simp only [List.cons_append, firstHashTokenAux]
    rw [if_neg hc]
    exact ih (fun hh => hp (List.mem_cons_of_mem _ hh))

/-- The assessment poller always makes at least one comment fetch. -/
theorem assessRun_probes_pos (commentsAt : Nat → List String) :
    1 ≤ (validate_ai_assessment_comment commentsAt).probes := by
  show 1 ≤ (assessLoop commentsAt [0, 1, 2, 3]).probes
  simp only [assessLoop]
  repeat' split
  all_goals simp_arith

/-! ## Claims -/

/-- C2: Run correlation is exact string match on the embedded #-token:
any run the correlator selects for identifier "1" has first-token
digits exactly "1"; a run titled with #11 (token digits "11") is never
selected for "1"; and among title-matching runs the first in input
order (most recent) is selected. -/
theorem c2_run_correlation_exact :
    (∀ (runs : List RunSnap) (r : RunSnap), findRunForIssue "1" runs = some r →
        extract_issue_number_from_title r.displayTitle = some "1") ∧
    extract_issue_number_from_title "AI Triage for Issue #1" = some "1" ∧
    extract_issue_number_from_title "AI Triage for Issue #11" = some "11" ∧
    (∀ (runs : List RunSnap) (r : RunSnap), findRunForIssue "1" runs = some r →
        r.displayTitle ≠ "AI Triage for Issue #11") ∧
    (∀ (pre post : List RunSnap) (r : RunSnap),
        (∀ q ∈ pre, extract_issue_number_from_title q.displayTitle ≠ some "1") →
        extract_issue_number_from_title r.displayTitle = some "1" →
        findRunForIssue "1" (pre ++ r :: post) = some r) := by
  refine ⟨fun runs r h => findRun_some_title h, by decide, by decide, ?_, findRun_first "1"⟩
  intro runs r h ht
  have hx := findRun_some_title h
  rw [ht] at hx
  exact absurd hx (by decide)

/-- Witness for C2: among a non-matching run, a #1-titled run and a
#11-titled run, the correlator for "1" picks the #1-titled one. -/
theorem c2_witness :
    findRunForIssue "1"
      [⟨none, "AI Triage for Issue #3", none, none, none, none⟩,
       ⟨none, "AI Triage for Issue #1", none, none, none, none⟩,
       ⟨none, "AI Triage for Issue #11", none, none, none, none⟩] =
      some ⟨none, "AI Triage for Issue #1", none, none, none, none⟩ :=
  c2_run_correlation_exact.2.2.2.2
    [⟨none, "AI Triage for Issue #3", none, none, none, none⟩]
    [⟨none, "AI Triage for Issue #11", none, none, none, none⟩]
    ⟨none, "AI Triage for Issue #1", none, none, none, none⟩
    (by decide) (by decide)

/-- C10: Only the first #-token of a display title is consulted: the
extracted digits are those of the first token regardless of what
follows its word boundary, so a run titled "re #2 for #1" extracts "2"
and is never selected when correlating identifier "1". -/
theorem c10_first_token_only :
    (∀ (p d r : List Char), ('#' : Char) ∉ p → d ≠ [] →
        (∀ c ∈ d, isDigitCh c = true) →
        (∀ c, r.head? = some c → isWordChar c = false) →
        firstHashTokenAux (p ++ '#' :: (d ++ r)) = some d) ∧
    extract_issue_number_from_title "re #2 for #1" = some "2" ∧
    (∀ (runs : List RunSnap) (r : RunSnap), findRunForIssue "1" runs = some r →
        r.displayTitle ≠ "re #2 for #1") := by
  refine ⟨firstHashTokenAux_precise, by decide, ?_⟩
  intro runs r h ht
  have hx := findRun_some_title h
  rw [ht] at hx
  exact absurd hx (by decide)

/-- Witness for C10: instantiating the first-token lemma on the
"re #2 for #1" split. -/
theorem c10_witness :
    firstHashTokenAux ("re ".data ++ '#' :: (['2'] ++ " for #1".data)) = some ['2'] :=
  c10_first_token_only.1 ("re ".data) ['2'] (" for #1".data) (by decide) (by decide)
    (by decide) (by intro c hc; simp at hc; subst hc; decide)

/-- C3: with max_retries = 3 and base wait 10, if no attempt ever finds
a correlated run, the loop sleeps 10, 20, 40 (before retries 1, 2, 3,
never before the first attempt), probes exactly 4 times, and fails with
the "No workflow run found" exhaustion message. -/
theorem c3_backoff_schedule (runsAt : Nat → List RunSnap) (issueNumber : String)
    (h : ∀ t, findRunForIssue issueNumber (runsAt t) = none) :
    completionRun runsAt issueNumber = ⟨.error .noRunFound, [10, 20, 40], 4⟩ := by
  simp [completionRun, runAttempts, completionLoop, h, maxRunRetries, baseRunWait]

/-- Witness for C3: a tracker that never reports any run. -/
theorem c3_witness :
    completionRun (fun _ => []) "1" = ⟨.error .noRunFound, [10, 20, 40], 4⟩ :=
  c3_backoff_schedule (fun _ => []) "1" (fun _ => rfl)

/-- C4: for a correlated run with all required fields present:
completed/success validates on the first probe; completed/failure fails
with the "did not complete successfully" message; a run that stays
in_progress through every attempt fails after 4 probes with the
exhaustion-specific "did not complete after N retries" message, which
is distinct from both content-fault messages. -/
theorem c4_terminal_statuses (r : RunSnap) (issueNumber : String)
    (hm : extract_issue_number_from_title r.displayTitle = some issueNumber)
    (hid : runIdFalsy r = false) (hc : r.createdD ≠ "") (hu : r.updatedD ≠ "") :
    (r.statusD = "completed" → r.conclusionD = "success" →
        completionRun (fun _ => [r]) issueNumber = ⟨.ok r, [], 1⟩) ∧
    (r.statusD = "completed" → r.conclusionD = "failure" →
        completionRun (fun _ => [r]) issueNumber =
          ⟨.error (.didNotCompleteSuccessfully "failure"), [], 1⟩) ∧
    (r.statusD = "in_progress" →
        completionRun (fun _ => [r]) issueNumber =
          ⟨.error (.didNotCompleteAfterRetries 3), [10, 20, 40], 4⟩) ∧
    (∀ s c, VFail.didNotCompleteAfterRetries 3 ≠ VFail.didNotComplete s ∧
        VFail.didNotCompleteAfterRetries 3 ≠ VFail.didNotCompleteSuccessfully c) := by
  have hfind := findRun_singleton hm
  refine ⟨?_, ?_, ?_, fun s c => ⟨fun hh => VFail.noConfusion hh, fun hh => VFail.noConfusion hh⟩⟩
  · intro hs hcc
    simp [completionRun, runAttempts, completionLoop, hfind, hid, hc, hu, hs, hcc,
      maxRunRetries, baseRunWait]
  · intro hs hcc
    simp [completionRun, runAttempts, completionLoop, hfind, hid, hc, hu, hs, hcc,
      maxRunRetries, baseRunWait]
  · intro hs
    simp [completionRun, runAttempts, completionLoop, hfind, hid, hc, hu, hs,
      maxRunRetries, baseRunWait]

/-- Witness for C4: a completed/successful run validates on the first
probe. -/
theorem c4_witness :
    completionRun (fun _ => [runFor "5"]) "5" = ⟨.ok (runFor "5"), [], 1⟩ :=
  (c4_terminal_statuses (runFor "5") "5" (by decide) (by decide) (by decide) (by decide)).1
    rfl rfl

/-- C8: a correlated snapshot with a falsy run identifier, or an empty
created-at, or an empty updated-at timestamp makes the completion
validator fail immediately on that probe — no sleep, a single probe —
regardless of the snapshot's status (so never as a retry condition). -/
theorem c8_required_fields (runsAt : Nat → List RunSnap) (issueNumber : String) (r : RunSnap)
    (hfind : findRunForIssue issueNumber (runsAt 0) = some r) :
    (runIdFalsy r = true →
        completionRun runsAt issueNumber = ⟨.error .noRunId, [], 1⟩) ∧
    (runIdFalsy r = false → r.createdD = "" →
        completionRun runsAt issueNumber = ⟨.error .noCreatedAt, [], 1⟩) ∧
    (runIdFalsy r = false → r.createdD ≠ "" → r.updatedD = "" →
        completionRun runsAt issueNumber = ⟨.error .noUpdatedAt, [], 1⟩) := by
  refine ⟨?_, ?_, ?_⟩
  · intro hid
    simp [completionRun, runAttempts, completionLoop, hfind, hid]
  · intro hid hcr
    simp [completionRun, runAttempts, completionLoop, hfind, hid, hcr]
  · intro hid hcr hup
    simp [completionRun, runAttempts, completionLoop, hfind, hid, hcr, hup]

/-- Witness for C8: an in-progress run with retries remaining but no
createdAt timestamp fails immediately with the data-integrity
message. -/
theorem c8_witness :
    completionRun (fun _ => [badRun]) "4" = ⟨.error .noCreatedAt, [], 1⟩ :=
  (c8_required_fields (fun _ => [badRun]) "4" badRun (by decide)).2.1 (by decide) rfl

/-- C6: label validation is fuzzy on severity but exact on component:
the expected set with ai:bug-triage:critical-coreapi passes against an
actual set carrying ai:bug-triage:high-coreapi, fails against
ai:bug-triage:high-networking with a failure naming the expected
component and the full actual label set, and an expected ai: label not
of the structured shape requires an exact literal match. -/
theorem c6_label_fuzzy_component :
    validate_issue_labels ["kind/bug", "ai:bug-triage:critical-coreapi"]
        ["kind/bug", "ai:bug-triage:high-coreapi"] = .ok () ∧
    validate_issue_labels ["kind/bug", "ai:bug-triage:critical-coreapi"]
        ["kind/bug", "ai:bug-triage:high-networking"] =
      .error (.componentNotFound "coreapi" ["kind/bug", "ai:bug-triage:high-networking"]) ∧
    (∀ (lbl : String) (actual : List String),
        labelStartsWith "ai:" lbl = true →
        labelStartsWith "ai:bug-triage:" lbl = false →
        validate_issue_labels [lbl] actual =
          (if actual.contains lbl then .ok () else .error (.aiLabelNotFound lbl actual))) := by
  refine ⟨by decide, by decide, ?_⟩
  intro lbl actual h1 h2
  have hne : ¬ lbl = "kind/bug" := by
    intro hh
    subst hh
    exact absurd h1 (by decide)
  have hkb : (([lbl] : List String).contains "kind/bug") = false := by
    simp [List.contains, hne, Ne.symm hne]
  have hded : dedupFirst [lbl] = [lbl] := rfl
  rw [validate_issue_labels, hkb]
  simp only [Bool.false_and, Bool.false_eq_true, if_false, hded, List.filter, h1]
  by_cases hmem : lbl ∈ actual
  · simp [checkAiLabels, checkAiLabel, h2, hmem]
  · simp [checkAiLabels, checkAiLabel, h2, hmem]

/-- Witness for C6: an unstructured ai: label absent from the actual
set fails with the exact-match message. -/
theorem c6_witness :
    validate_issue_labels ["ai:other-label"] [] =
      .error (.aiLabelNotFound "ai:other-label" []) := by
  have h := c6_label_fuzzy_component.2.2 "ai:other-label" [] (by decide) (by decide)
  simpa using h

/-- C7: the assessment validator accepts
"AI Assessment: critical-CoreAPI\nmore text" immediately (token
critical-CoreAPI, case-insensitive vocabulary match); a marker with the
out-of-vocabulary token urgent-thing never succeeds and, once the retry
budget of 3 retries is exhausted (4 probes), fails with the invalid
format message reporting the literally found token, which is distinct
from the no-comments-at-all message. -/
theorem c7_assessment_vocabulary :
    assessTokenAux ("AI Assessment: critical-CoreAPI\nmore text".data) =
      some ("critical-CoreAPI".data) ∧
    isValidAssessment "critical-CoreAPI" = true ∧
    validate_ai_assessment_comment (fun _ => ["AI Assessment: critical-CoreAPI\nmore text"]) =
      ⟨.ok (), [], 1⟩ ∧
    isValidAssessment "urgent-thing" = false ∧
    validate_ai_assessment_comment (fun _ => ["AI Assessment: urgent-thing"]) =
      ⟨.error (.invalidFormat ["urgent-thing"]), [3, 6, 12], 4⟩ ∧
    validate_ai_assessment_comment (fun _ => []) =
      ⟨.error (.noComments 4), [3, 6, 12], 4⟩ ∧
    (∀ found, AssessFail.invalidFormat found ≠ AssessFail.noComments 4) :=
  ⟨by decide, by decide, by decide, by decide, by decide, by decide,
    fun _ hh => AssessFail.noConfusion hh⟩

/-- Witness for C7: the two failure messages are distinct at the
concrete found token. -/
theorem c7_witness :
    AssessFail.invalidFormat ["urgent-thing"] ≠ AssessFail.noComments 4 :=
  c7_assessment_vocabulary.2.2.2.2.2.2 ["urgent-thing"]

/-- C9: the marker gate is the case-sensitive `in` check, so a body
without the exact-case marker is treated as having no marker at all:
it can never satisfy the per-comment scan, contributes no found token,
and a single such comment ends in the "comment not found" failure
(distinct from the malformed-token failure). -/
theorem c9_marker_case_sensitive (body : String)
    (h : containsSub markerChars body.data = false) :
    commentValid body = false ∧
    collectTokens [body] = [] ∧
    validate_ai_assessment_comment (fun _ => [body]) =
      ⟨.error (.notFound 4), [3, 6, 12], 4⟩ ∧
    (∀ found, AssessFail.notFound 4 ≠ AssessFail.invalidFormat found) := by
  have h1 : commentValid body = false := by simp [commentValid, h]
  have h2 : collectTokens [body] = [] := by simp [collectTokens, h]
  refine ⟨h1, h2, ?_, fun _ hh => AssessFail.noConfusion hh⟩
  simp [validate_ai_assessment_comment, assessLoop, h1, h2, maxCommentRetries, baseCommentWait]

/-- Witness for C9: a body carrying the marker phrase only in lower
case (it does match case-insensitively) is treated as marker-less and
fails with the "comment not found" message. -/
theorem c9_witness :
    startsWithCI markerChars ("ai assessment: critical-coreapi".data) = true ∧
    commentValid "ai assessment: critical-coreapi" = false ∧
    validate_ai_assessment_comment (fun _ => ["ai assessment: critical-coreapi"]) =
      ⟨.error (.notFound 4), [3, 6, 12], 4⟩ := by
  have h := c9_marker_case_sensitive "ai assessment: critical-coreapi" (by decide)
  exact ⟨by decide, h.1, h.2.2.1⟩

/-- Counterexample to C5 as stated: completion succeeds, the fixture
expects an assessment, a valid assessment comment is available — yet
because the label validation fails (raises), the assessment validator
performs zero comment fetches. -/
theorem c5_counterexample :
    validate_issue_with_retry envGated "7" mdPositive =
      ⟨.error (.labelFail (.kindBugMissing [])), [], 1, 0⟩ ∧
    validate_ai_assessment_comment envGated.commentsAt = ⟨.ok (), [], 1⟩ :=
  ⟨by decide, by decide⟩

/-- C5 (amended): assessment validation is gated by label validation:
after a successful completion validation, a label-validation failure
becomes the issue's result and the assessment validator is never
entered (zero comment fetches); the assessment validator runs (at
least one fetch) only when the label validation passes — or is skipped
because no labels are expected — and the fixture expects an
assessment. -/
theorem c5_amended_assessment_gated (env : IssueEnv) (issueNumber : String) (md : Metadata)
    (r : RunSnap) (ws : List Nat) (ps : Nat)
    (hcomp : completionRun env.runsAt issueNumber = ⟨.ok r, ws, ps⟩) :
    (∀ lf, md.expected_labels.isEmpty = false →
        validate_issue_labels md.expected_labels env.labels = .error lf →
        validate_issue_with_retry env issueNumber md =
          ⟨.error (.labelFail lf), ws, ps, 0⟩) ∧
    (md.expected_labels.isEmpty = false →
        validate_issue_labels md.expected_labels env.labels = .ok () →
        (md.is_positive || truthyOptStr md.expected_assessment) = true →
        (validate_issue_with_retry env issueNumber md).assessProbes =
            (validate_ai_assessment_comment env.commentsAt).probes ∧
          1 ≤ (validate_issue_with_retry env issueNumber md).assessProbes) := by
  constructor
  · intro lf hne hlf
    simp [validate_issue_with_retry, hcomp, hne, hlf]
  · intro hne hok hexp
    have hp := assessRun_probes_pos env.commentsAt
    constructor
    · simp [validate_issue_with_retry, hcomp, hne, hok, hexp]
    · simp only [validate_issue_with_retry, hcomp, hne, hok, hexp]
      simpa using hp

/-- Witness for C5 (amended): both directions at concrete inputs — the
gated failure with zero assessment fetches, and a passing label
validation followed by an entered assessment validator. -/
theorem c5_witness :
    validate_issue_with_retry envGated "7" mdPositive =
      ⟨.error (.labelFail (.kindBugMissing [])), [], 1, 0⟩ ∧
    (validate_issue_with_retry envPass "6" mdPositive).assessProbes =
        (validate_ai_assessment_comment envPass.commentsAt).probes ∧
      1 ≤ (validate_issue_with_retry envPass "6" mdPositive).assessProbes :=
  ⟨(c5_amended_assessment_gated envGated "7" mdPositive (runFor "7") [] 1
      (by decide)).1 (.kindBugMissing []) rfl (by decide),
    (c5_amended_assessment_gated envPass "6" mdPositive (runFor "6") [] 1
      (by decide)).2 rfl (by decide) rfl⟩

/-- Counterexample to C1 as stated: with two created issues where the
first one's validation fails (no run ever found) and the second one's
validation would succeed on its own, the orchestrator validates only
the first issue — the raised failure ends the loop, so the second
issue's validation never runs. -/
theorem c1_counterexample :
    validate_test_issues envStops []
        ["https://github.com/okd/okd/issues/1", "https://github.com/okd/okd/issues/2"] =
      (["1"], .error ("1", .noRunFound)) ∧
    (validate_issue_with_retry (envStops "2") "2" defaultMetadata).result = .ok () :=
  ⟨by decide, by decide⟩

/-- C1 (amended): a validation failure of one issue aborts the
orchestrator: the failure is recorded scoped to (tagged with) the
failing issue, but the loop stops there — issues before it are each
validated, issues after it are never validated. -/
theorem c1_amended_stops_early (env : String → IssueEnv) (mdMap : List (String × Metadata))
    (ns1 : List String) (n : String) (ns2 : List String) (f : VFail)
    (h1 : ∀ m ∈ ns1, (validate_issue_with_retry (env m) m (lookupMd mdMap m)).result = .ok ())
    (h2 : (validate_issue_with_retry (env n) n (lookupMd mdMap n)).result = .error f) :
    validateIssuesGo env mdMap (ns1 ++ n :: ns2) = (ns1 ++ [n], .error (n, f)) := by
  induction ns1 with
  | nil =>
    simp [validateIssuesGo, h2]
  | cons m ms ih =>
    have hm := h1 m (List.mem_cons_self _ _)
    have ihm := ih (fun x hx => h1 x (List.mem_cons_of_mem _ hx))
    simp [validateIssuesGo, hm, ihm]

/-- Witness for C1 (amended): issue 1 validates, issue 2 fails, and
issue 3 is dropped by the orchestrator. -/
theorem c1_witness :
    validateIssuesGo envMid [] ["1", "2", "3"] = (["1", "2"], .error ("2", .noRunFound)) :=
  c1_amended_stops_early envMid [] ["1"] "2" ["3"] .noRunFound
    (by intro m hm; rw [List.mem_singleton] at hm; subst hm; decide)
    (by decide)
